import Mathlib

/-!
Verification of the EndoTrace endoscope-traceability application
(`EndoscopeMgmt/auth.py`, `EndoscopeMgmt/app.py`) against its
natural-language specification.  The Python code is shallowly embedded:
Streamlit `st.session_state` becomes a partial map from string keys to
dynamic values, the role-gate decorator becomes a function producing a
typed outcome, and the form-submission handlers become pure functions on
an explicit record store.  Functions implemented in `database.py`, which
is not part of the provided sources, are modelled from the spec and
marked as such in their doc comments.
-/

namespace EndoTrace

/-- Dynamic value stored under a key of `st.session_state`: the code only
ever stores booleans (`authenticated`) and strings (`user_role`,
`username`), so those two shapes suffice. -/
inductive SVal where
  | vBool : Bool → SVal
  | vStr : String → SVal
deriving DecidableEq, Repr

/-- Python truthiness for the stored values: `False` and `""` are falsy. -/
def SVal.truthy : SVal → Bool
  | .vBool b => b
  | .vStr s => !(s = "")

/-- `st.session_state` as a partial map from keys to values. -/
def SessionState := String → Option SVal

/-- `auth.check_authentication`: `'authenticated' in st.session_state and
st.session_state.authenticated`. -/
def check_authentication (st : SessionState) : Bool :=
  match st "authenticated" with
  | some v => v.truthy
  | none => false

/-- `auth.get_user_role`: `st.session_state.get('user_role', None)`. -/
def get_user_role (st : SessionState) : Option SVal :=
  st "user_role"

/-- `auth.get_username`: `st.session_state.get('username', None)`. -/
def get_username (st : SessionState) : Option SVal :=
  st "username"

/-- Python membership test `v in allowed_roles` where `allowed_roles` is a
list of strings and `v` is the (possibly missing) session value: only a
stored string equal to a list element is a member; `None` and booleans
are never members. -/
def pyInStrList : Option SVal → List String → Bool
  | some (.vStr r), l => l.contains r
  | _, _ => false

/-- Outcome of the `require_role` gate. -/
inductive GateOutcome where
  | permit
  | unauthenticated (msg : String)
  | forbidden (msg : String)
deriving DecidableEq, Repr

/-- `auth.require_role(allowed_roles)` applied to a wrapped page: deny with
the fixed unauthenticated message when `check_authentication` fails, deny
with a message enumerating the allowed roles when the session role is not
in `allowed_roles`, otherwise run the page (permit). -/
def require_role (allowed_roles : List String) (st : SessionState) : GateOutcome :=
  if ¬ check_authentication st then
    .unauthenticated "Vous devez être connecté pour accéder à cette page"
  else if ¬ pyInStrList (get_user_role st) allowed_roles then
    .forbidden ("Accès refusé. Rôles autorisés: " ++ String.intercalate ", " allowed_roles)
  else
    .permit

/-- `auth.logout`: delete the keys `authenticated`, `user_role`,
`username` from the session state when present, leaving every other key
untouched. -/
def logout (st : SessionState) : SessionState :=
  fun k =>
    if k = "authenticated" ∨ k = "user_role" ∨ k = "username" then none else st k

/-- A stored value is a member of a string list exactly when it is a
string belonging to the list. -/
theorem pyInStrList_iff (v : Option SVal) (l : List String) :
    pyInStrList v l = true ↔ ∃ r, v = some (.vStr r) ∧ r ∈ l := by
  cases v with
  | none => simp [pyInStrList]
  | some w =>
    cases w with
    | vBool b => simp [pyInStrList]
    | vStr r => simp [pyInStrList, List.contains, List.elem_iff]

/-- C1: the role gate permits exactly when the session is authenticated and
its role belongs to the allowed set; an unauthenticated session is denied
with the unauthenticated outcome, and an authenticated session whose role
is outside the set is denied with a forbidden outcome whose message
enumerates the allowed roles. -/
theorem require_role_correct (st : SessionState) (allowed : List String) :
    (require_role allowed st = .permit ↔
      check_authentication st = true ∧
        ∃ r, get_user_role st = some (.vStr r) ∧ r ∈ allowed) ∧
    (check_authentication st = false →
      require_role allowed st =
        .unauthenticated "Vous devez être connecté pour accéder à cette page") ∧
    (check_authentication st = true →
      pyInStrList (get_user_role st) allowed = false →
      require_role allowed st =
        .forbidden ("Accès refusé. Rôles autorisés: " ++
          String.intercalate ", " allowed)) := by
  refine ⟨?_, ?_, ?_⟩
  · constructor
    · intro h
      by_cases ha : check_authentication st
      · by_cases hr : pyInStrList (get_user_role st) allowed
        · exact ⟨ha, (pyInStrList_iff _ _).mp hr⟩
        · simp [require_role, ha, hr] at h
      · simp [require_role, ha] at h
    · rintro ⟨ha, r, hr, hmem⟩
      have : pyInStrList (get_user_role st) allowed = true :=
        (pyInStrList_iff _ _).mpr ⟨r, hr, hmem⟩
      simp [require_role, ha, this]
  · intro ha
    simp [require_role, ha]
  · intro ha hr
    simp [require_role, ha, hr]

/-- A concrete authenticated admin session. -/
def stAdmin : SessionState :=
  fun k =>
    if k = "authenticated" then some (.vBool true)
    else if k = "user_role" then some (.vStr "admin")
    else if k = "username" then some (.vStr "alice")
    else none

/-- Witness for C1: on a concrete authenticated admin session the gate for
the user-management page permits. -/
theorem require_role_correct_witness :
    require_role ["admin"] stAdmin = .permit :=
  (require_role_correct stAdmin ["admin"]).1.mpr
    ⟨by decide, "admin", by decide, by decide⟩

/-- C9: logout removes exactly the three session-identity keys, the session
is unauthenticated immediately afterwards, and every other key keeps its
previous value. -/
theorem logout_correct (st : SessionState) :
    logout st "authenticated" = none ∧
    logout st "user_role" = none ∧
    logout st "username" = none ∧
    check_authentication (logout st) = false ∧
    (∀ k, k ≠ "authenticated" → k ≠ "user_role" → k ≠ "username" →
      logout st k = st k) := by
  refine ⟨by simp [logout], by simp [logout], by simp [logout], ?_, ?_⟩
  · simp [check_authentication, logout]
  · intro k h1 h2 h3
    simp [logout, h1, h2, h3]

/-- Witness for C9: after logging out the concrete admin session, the
identity keys are gone, the session is unauthenticated, and an unrelated
key is untouched. -/
theorem logout_correct_witness :
    logout stAdmin "authenticated" = none ∧
    logout stAdmin "user_role" = none ∧
    logout stAdmin "username" = none ∧
    check_authentication (logout stAdmin) = false ∧
    logout stAdmin "theme" = stAdmin "theme" :=
  ⟨(logout_correct stAdmin).1, (logout_correct stAdmin).2.1,
   (logout_correct stAdmin).2.2.1, (logout_correct stAdmin).2.2.2.1,
   (logout_correct stAdmin).2.2.2.2 "theme" (by decide) (by decide) (by decide)⟩

/-- Modelled from the spec: `can_user_modify_sterilisation_report` is
implemented in `database.py`, which is not among the provided sources;
per the spec, `admin` and `biomedical` may modify any report,
`sterilisation` only reports they authored, every other role is denied.
The spec-level signature takes the report owner's username directly. -/
def can_user_modify_sterilisation_report
    (role report_owner acting : String) : Bool :=
  if role = "admin" ∨ role = "biomedical" then true
  else if role = "sterilisation" then acting = report_owner
  else false

/-- C2: admin and biomedical may modify any sterilization report;
sterilisation may modify exactly their own; any other role is denied. -/
theorem can_modify_correct (role report_owner acting : String) :
    (role = "admin" ∨ role = "biomedical" →
      can_user_modify_sterilisation_report role report_owner acting = true) ∧
    (role = "sterilisation" →
      (can_user_modify_sterilisation_report role report_owner acting = true ↔
        acting = report_owner)) ∧
    (role ≠ "admin" → role ≠ "biomedical" → role ≠ "sterilisation" →
      can_user_modify_sterilisation_report role report_owner acting = false) := by
  refine ⟨?_, ?_, ?_⟩
  · intro h
    rcases h with h | h <;> simp [can_user_modify_sterilisation_report, h]
  · intro h
    subst h
    simp [can_user_modify_sterilisation_report]
  · intro h1 h2 h3
    simp [can_user_modify_sterilisation_report, h1, h2, h3]

/-- Witness for C2: the three concrete cases given in the spec. -/
theorem can_modify_correct_witness :
    can_user_modify_sterilisation_report "sterilisation" "alice" "alice" = true ∧
    can_user_modify_sterilisation_report "sterilisation" "alice" "bob" = false ∧
    can_user_modify_sterilisation_report "biomedical" "alice" "bob" = true := by
  refine ⟨?_, ?_, ?_⟩
  · exact ((can_modify_correct "sterilisation" "alice" "alice").2.1 rfl).mpr rfl
  · have h := (can_modify_correct "sterilisation" "alice" "bob").2.1 rfl
    cases hb : can_user_modify_sterilisation_report "sterilisation" "alice" "bob"
    · rfl
    · exact absurd (h.mp hb) (by decide)
  · exact (can_modify_correct "biomedical" "alice" "bob").1 (Or.inr rfl)

/-- A row of the `users` table: what the user-management page reads. -/
structure User where
  id : Nat
  username : String
  role : String
deriving DecidableEq, Repr

/-- Outcome of the user-deletion action. -/
inductive DeleteOutcome where
  | success
  | notFound
  | protectedEntity
deriving DecidableEq, Repr

/-- Modelled from the spec: `db.delete_user(id)` is implemented in
`database.py`, which is not among the provided sources; per the spec,
`delete(id)` removes the record and succeeds when the id exists, and
fails with NotFound otherwise. -/
def delete_user (users : List User) (uid : Nat) :
    DeleteOutcome × List User :=
  if users.any (fun u => u.id = uid) then
    (.success, users.filter (fun u => ¬ u.id = uid))
  else
    (.notFound, users)

/-- The per-row deletion action of `show_admin_interface`: the delete
button is only offered when `user['username'] != 'admin'`; the row of the
user named `admin` instead shows the protected notice, so deleting it is
impossible from this operation. -/
def admin_delete_action (users : List User) (u : User) :
    DeleteOutcome × List User :=
  if ¬ u.username = "admin" then delete_user users u.id
  else (.protectedEntity, users)

/-- C3: deleting the user named `admin` through the user-management page
always yields the protected-entity outcome and leaves the table unchanged;
deleting any other listed user succeeds and removes exactly that id. -/
theorem admin_delete_correct (users : List User) (u : User)
    (hmem : u ∈ users) :
    (u.username = "admin" →
      admin_delete_action users u = (.protectedEntity, users)) ∧
    (u.username ≠ "admin" →
      admin_delete_action users u =
        (.success, users.filter (fun v => ¬ v.id = u.id))) := by
  constructor
  · intro h
    simp [admin_delete_action, h]
  · intro h
    have hex : users.any (fun v => v.id = u.id) = true := by
      simp only [List.any_eq_true]
      exact ⟨u, hmem, by simp⟩
    simp [admin_delete_action, h, delete_user, hex]

/-- Witness for C3: in a concrete two-row table, deleting `admin` is
refused with the table intact, while deleting `bob` succeeds and removes
his row. -/
theorem admin_delete_correct_witness :
    admin_delete_action
        [⟨1, "admin", "admin"⟩, ⟨2, "bob", "sterilisation"⟩]
        ⟨1, "admin", "admin"⟩ =
      (.protectedEntity,
        [⟨1, "admin", "admin"⟩, ⟨2, "bob", "sterilisation"⟩]) ∧
    admin_delete_action
        [⟨1, "admin", "admin"⟩, ⟨2, "bob", "sterilisation"⟩]
        ⟨2, "bob", "sterilisation"⟩ =
      (.success, [⟨1, "admin", "admin"⟩]) := by
  constructor
  · exact (admin_delete_correct
      [⟨1, "admin", "admin"⟩, ⟨2, "bob", "sterilisation"⟩]
      ⟨1, "admin", "admin"⟩ (by decide)).1 rfl
  · have h := (admin_delete_correct
      [⟨1, "admin", "admin"⟩, ⟨2, "bob", "sterilisation"⟩]
      ⟨2, "bob", "sterilisation"⟩ (by decide)).2 (by decide)
    rw [h]
    decide

/-- Which query the report-management listing issues (lines 463-466 of
`app.py`): the user-scoped query or the all-reports query. -/
inductive ReportsQuery where
  | userOnly (username : String)
  | allReports
deriving DecidableEq, Repr

/-- The query selection of the "Gérer Rapports" tab: user-scoped when the
"Mes rapports uniquement" checkbox is checked or the role is
`sterilisation`, otherwise all reports. -/
def manage_reports_query (role : String) (filter_by_user : Bool)
    (username : String) : ReportsQuery :=
  if filter_by_user ∨ role = "sterilisation" then .userOnly username
  else .allReports

/-- C10: a sterilisation user always gets the user-scoped query, whatever
the checkbox state; and any session that reaches this page (gated to
roles sterilisation and biomedical) and obtains the all-reports query has
role admin or biomedical (in fact biomedical). -/
theorem manage_reports_query_correct :
    (∀ (cb : Bool) (uname : String),
      manage_reports_query "sterilisation" cb uname = .userOnly uname) ∧
    (∀ (st : SessionState) (role : String) (cb : Bool) (uname : String),
      require_role ["sterilisation", "biomedical"] st = .permit →
      get_user_role st = some (.vStr role) →
      manage_reports_query role cb uname = .allReports →
      role = "admin" ∨ role = "biomedical") := by
  constructor
  · intro cb uname
    simp [manage_reports_query]
  · intro st role cb uname hperm hrole hall
    have hmem := ((require_role_correct st ["sterilisation", "biomedical"]).1.mp
      hperm).2
    obtain ⟨r, hr, hrmem⟩ := hmem
    rw [hrole] at hr
    have hrr : r = role := by
      cases hr
      rfl
    subst hrr
    have hnster : ¬ r = "sterilisation" := by
      intro h
      subst h
      simp [manage_reports_query] at hall
    right
    have hor : r = "sterilisation" ∨ r = "biomedical" := by
      simpa using hrmem
    rcases hor with h | h
    · exact absurd h hnster
    · exact h

/-- A concrete authenticated biomedical session. -/
def stBio : SessionState :=
  fun k =>
    if k = "authenticated" then some (.vBool true)
    else if k = "user_role" then some (.vStr "biomedical")
    else if k = "username" then some (.vStr "bob")
    else none

/-- Witness for C10: a sterilisation user with the checkbox unchecked
still gets the user-scoped query, and a biomedical session that reaches
the all-reports query indeed has an allowed role. -/
theorem manage_reports_query_correct_witness :
    manage_reports_query "sterilisation" false "alice" = .userOnly "alice" ∧
    ("biomedical" = "admin" ∨ "biomedical" = "biomedical") :=
  ⟨manage_reports_query_correct.1 false "alice",
   manage_reports_query_correct.2 stBio "biomedical" false "bob"
     (by decide) (by decide) (by decide)⟩

/-- Python substring test `":" in s` for the one-character needle `:`,
which is exactly membership of the character in the string. -/
def hasColon (s : String) : Bool :=
  s.data.contains ':'

/-- Python truthiness of the optional `nature_panne` text area value:
`not nature_panne` holds when it is `None` or the empty string. -/
def optStrFalsy : Option String → Bool
  | none => true
  | some s => s = ""

/-- The sterilization-report form fields that the submit handler of
`show_sterilization_interface` validates.  `selected_id = 0` encodes a
falsy endoscope selection, matching Python truthiness of the id. -/
structure ReportForm where
  selected_id : Nat
  medecin_responsable : String
  salle : String
  type_acte : String
  heure_debut : String
  heure_fin : String
  date_desinfection : Nat
  type_desinfection : String
  cycle : String
  test_etancheite : String
  etat_endoscope : String
  nature_panne : Option String
deriving DecidableEq, Repr

/-- A persisted sterilization report, with the fields passed to
`db.add_sterilisation_report` (dates as day ordinals). -/
structure SterilizationReport where
  nom_operateur : String
  endoscope : String
  numero_serie : String
  medecin_responsable : String
  date_desinfection : Nat
  type_desinfection : String
  cycle : String
  test_etancheite : String
  heure_debut : String
  heure_fin : String
  procedure_medicale : String
  salle : String
  type_acte : String
  etat_endoscope : String
  nature_panne : Option String
  created_by : String
deriving DecidableEq, Repr

/-- Outcome of submitting the sterilization-report form: one of the three
validation errors of the handler's `elif` chain, or a saved report. -/
inductive SubmitResult where
  | errRequired
  | errPanne
  | errTimeFormat
  | saved
deriving DecidableEq, Repr

/-- The validation chain of the report form (both the create handler and
the edit handler check the same three conditions in the same order):
required fields truthy, `nature_panne` present when the endoscope is
`en panne`, and a `:` in each time field. -/
def validate_report (f : ReportForm) : SubmitResult :=
  if f.selected_id = 0 ∨ f.medecin_responsable = "" ∨ f.salle = "" ∨
      f.type_acte = "" ∨ f.heure_debut = "" ∨ f.heure_fin = "" then
    .errRequired
  else if f.etat_endoscope = "en panne" ∧ optStrFalsy f.nature_panne then
    .errPanne
  else if ¬ hasColon f.heure_debut ∨ ¬ hasColon f.heure_fin then
    .errTimeFormat
  else
    .saved

/-- The report built from the form on the happy path: operator name and
the selected endoscope's designation/serial snapshot, with the fixed
`"N/A"` medical-procedure placeholder. -/
def mkReport (f : ReportForm) (operator endoscope_name serial : String) :
    SterilizationReport :=
  { nom_operateur := operator
    endoscope := endoscope_name
    numero_serie := serial
    medecin_responsable := f.medecin_responsable
    date_desinfection := f.date_desinfection
    type_desinfection := f.type_desinfection
    cycle := f.cycle
    test_etancheite := f.test_etancheite
    heure_debut := f.heure_debut
    heure_fin := f.heure_fin
    procedure_medicale := "N/A"
    salle := f.salle
    type_acte := f.type_acte
    etat_endoscope := f.etat_endoscope
    nature_panne := f.nature_panne
    created_by := operator }

/-- The submit handler: run the validation chain; on success persist the
report.  The persistence itself is modelled from the spec
(`db.add_sterilisation_report` lives in `database.py`, absent from the
provided sources): `create` appends the record to the store. -/
def submit_report (f : ReportForm) (operator endoscope_name serial : String)
    (store : List SterilizationReport) :
    SubmitResult × List SterilizationReport :=
  match validate_report f with
  | .saved => (.saved, store ++ [mkReport f operator endoscope_name serial])
  | e => (e, store)

/-- The validation chain succeeds exactly when the required fields are
truthy, `nature_panne` is present whenever the endoscope is `en panne`,
and both time fields contain a `:`. -/
theorem validate_report_saved_iff (f : ReportForm) :
    validate_report f = .saved ↔
      ¬(f.selected_id = 0 ∨ f.medecin_responsable = "" ∨ f.salle = "" ∨
          f.type_acte = "" ∨ f.heure_debut = "" ∨ f.heure_fin = "") ∧
      ¬(f.etat_endoscope = "en panne" ∧ optStrFalsy f.nature_panne = true) ∧
      hasColon f.heure_debut = true ∧ hasColon f.heure_fin = true := by
  unfold validate_report
  split_ifs with h1 h2 h3
  · simp [h1]
  · simp [h1, h2]
  · constructor
    · intro h
      cases h
    · intro h
      rcases h3 with h3 | h3
      · exact absurd h.2.2.1 h3
      · exact absurd h.2.2.2 h3
  · push_neg at h3
    simp [h1, h2, h3.1, h3.2]

/-- C4: a submission whose endoscope state is `en panne` with an absent or
empty `nature_panne` fails the panne validation and persists nothing; the
same submission with `nature_panne` populated passes that validation and
is persisted. -/
theorem nature_panne_validation (f : ReportForm)
    (op en se : String) (store : List SterilizationReport)
    (h1 : f.selected_id ≠ 0) (h2 : f.medecin_responsable ≠ "")
    (h3 : f.salle ≠ "") (h4 : f.type_acte ≠ "")
    (h5 : hasColon f.heure_debut = true)
    (h6 : hasColon f.heure_fin = true)
    (hp : f.etat_endoscope = "en panne") :
    (optStrFalsy f.nature_panne = true →
      submit_report f op en se store = (.errPanne, store)) ∧
    (∀ s : String, s ≠ "" →
      submit_report { f with nature_panne := some s } op en se store =
        (.saved,
          store ++ [mkReport { f with nature_panne := some s } op en se])) := by
  have hhd : f.heure_debut ≠ "" := by
    intro h
    rw [h] at h5
    exact absurd h5 (by decide)
  have hhf : f.heure_fin ≠ "" := by
    intro h
    rw [h] at h6
    exact absurd h6 (by decide)
  constructor
  · intro hnp
    simp [submit_report, validate_report, h1, h2, h3, h4, hhd, hhf, hp, hnp]
  · intro s hs
    have hsaved : validate_report { f with nature_panne := some s } = .saved := by
      rw [validate_report_saved_iff]
      refine ⟨?_, ?_, h5, h6⟩
      · simp [h1, h2, h3, h4, hhd, hhf]
      · simp [optStrFalsy, hs]
    simp [submit_report, hsaved]

/-- A concrete broken-endoscope submission with well-formed times. -/
def panneForm : ReportForm :=
  { selected_id := 3
    medecin_responsable := "Dr. Martin"
    salle := "Salle 2"
    type_acte := "Coloscopie"
    heure_debut := "14:30"
    heure_fin := "15:45"
    date_desinfection := 20250
    type_desinfection := "manuel"
    cycle := "complet"
    test_etancheite := "réussi"
    etat_endoscope := "en panne"
    nature_panne := none }

/-- Witness for C4: the concrete broken-endoscope submission is rejected
while `nature_panne` is empty and saved once it is populated. -/
theorem nature_panne_validation_witness :
    submit_report panneForm "alice" "Olympus GIF" "S100" [] =
      (.errPanne, []) ∧
    submit_report { panneForm with nature_panne := some "fuite" }
        "alice" "Olympus GIF" "S100" [] =
      (.saved,
        [mkReport { panneForm with nature_panne := some "fuite" }
          "alice" "Olympus GIF" "S100"]) := by
  have h := nature_panne_validation panneForm "alice" "Olympus GIF" "S100" []
    (by decide) (by decide) (by decide) (by decide) (by decide) (by decide) rfl
  exact ⟨h.1 (by decide), h.2 "fuite" (by decide)⟩

/-- C5: a submission whose `heure_debut` or `heure_fin` lacks a `:` fails
validation and persists nothing; conversely no range check is performed —
once the required fields are truthy, the panne rule is satisfied and each
time field contains a `:`, the submission is saved whatever the time
values are. -/
theorem time_format_validation (f : ReportForm) (op en se : String)
    (store : List SterilizationReport) :
    ((hasColon f.heure_debut = false ∨ hasColon f.heure_fin = false) →
      (submit_report f op en se store).1 ≠ .saved ∧
      (submit_report f op en se store).2 = store) ∧
    (f.selected_id ≠ 0 → f.medecin_responsable ≠ "" → f.salle ≠ "" →
      f.type_acte ≠ "" →
      ¬(f.etat_endoscope = "en panne" ∧ optStrFalsy f.nature_panne = true) →
      hasColon f.heure_debut = true → hasColon f.heure_fin = true →
      submit_report f op en se store =
        (.saved, store ++ [mkReport f op en se])) := by
  constructor
  · intro hmiss
    have hns : validate_report f ≠ .saved := by
      intro h
      have := (validate_report_saved_iff f).mp h
      rcases hmiss with hm | hm
      · rw [this.2.2.1] at hm
        cases hm
      · rw [this.2.2.2] at hm
        cases hm
    constructor
    · intro h
      apply hns
      cases hv : validate_report f <;>
        simp [submit_report, hv] at h ⊢
    · cases hv : validate_report f <;> simp [submit_report, hv]
      exact absurd hv hns
  · intro h1 h2 h3 h4 hp h5 h6
    have hhd : f.heure_debut ≠ "" := by
      intro h
      rw [h] at h5
      exact absurd h5 (by decide)
    have hhf : f.heure_fin ≠ "" := by
      intro h
      rw [h] at h6
      exact absurd h6 (by decide)
    have hsaved : validate_report f = .saved := by
      rw [validate_report_saved_iff]
      exact ⟨by simp [h1, h2, h3, h4, hhd, hhf], hp, h5, h6⟩
    simp [submit_report, hsaved]

/-- The broken-endoscope submission with a malformed start time. -/
def badTimeForm : ReportForm :=
  { panneForm with nature_panne := some "fuite", heure_debut := "1430" }

/-- The broken-endoscope submission with well-separated but out-of-range
times. -/
def weirdTimeForm : ReportForm :=
  { panneForm with nature_panne := some "fuite", heure_debut := "99:99",
                   heure_fin := "88:77" }

/-- Witness for C5: a submission with `heure_debut = "1430"` is rejected
with the store untouched, and the same submission with the out-of-range
times `"99:99"`/`"88:77"` is saved — no range check. -/
theorem time_format_validation_witness :
    (submit_report badTimeForm "alice" "Olympus GIF" "S100" []).1 ≠ .saved ∧
    (submit_report badTimeForm "alice" "Olympus GIF" "S100" []).2 = [] ∧
    submit_report weirdTimeForm "alice" "Olympus GIF" "S100" [] =
      (.saved, [mkReport weirdTimeForm "alice" "Olympus GIF" "S100"]) := by
  refine ⟨?_, ?_, ?_⟩
  · exact ((time_format_validation badTimeForm "alice" "Olympus GIF" "S100"
      []).1 (Or.inl (by decide))).1
  · exact ((time_format_validation badTimeForm "alice" "Olympus GIF" "S100"
      []).1 (Or.inl (by decide))).2
  · exact (time_format_validation weirdTimeForm "alice" "Olympus GIF" "S100"
      []).2 (by decide) (by decide) (by decide) (by decide) (by decide)
      (by decide) (by decide)

/-- A row of the `endoscopes` table, with the fields the dashboard and the
archive filters read. -/
structure Endoscope where
  id : Nat
  designation : String
  numero_serie : String
  etat : String
  localisation : String
deriving DecidableEq, Repr

/-- Modelled from the spec: `get_malfunction_percentage` is implemented in
`database.py`, which is not among the provided sources; per the spec it
returns `(100 × broken_count / total_count, broken_count, total_count)`
when the store is non-empty and `(0, 0, 0)` when it is empty, with no
rounding at this layer (the percentage is kept exact, as a rational). -/
def get_malfunction_percentage (es : List Endoscope) : ℚ × Nat × Nat :=
  let total := es.length
  let broken := (es.filter (fun e => e.etat = "en panne")).length
  if 0 < total then ((100 * broken : ℚ) / total, broken, total)
  else (0, 0, 0)

/-- C6: the malfunction statistic reports the broken count and the total
count of the endoscope store, the exact unrounded percentage
`100 × broken / total` when the store is non-empty, and `(0, 0, 0)` when
it is empty. -/
theorem malfunction_percentage_correct (es : List Endoscope) :
    (get_malfunction_percentage es).2.1 =
      (es.filter (fun e => e.etat = "en panne")).length ∧
    (get_malfunction_percentage es).2.2 = es.length ∧
    (es.length = 0 → get_malfunction_percentage es = (0, 0, 0)) ∧
    (0 < es.length →
      (get_malfunction_percentage es).1 =
        (100 * ((es.filter (fun e => e.etat = "en panne")).length : ℚ)) /
          es.length) := by
  refine ⟨?_, ?_, ?_, ?_⟩
  · by_cases h : 0 < es.length
    · simp [get_malfunction_percentage, h]
    · have h0 : es.length = 0 := by omega
      have : es = [] := List.eq_nil_of_length_eq_zero h0
      subst this
      simp [get_malfunction_percentage]
  · by_cases h : 0 < es.length
    · simp [get_malfunction_percentage, h]
    · have h0 : es.length = 0 := by omega
      simp [get_malfunction_percentage, h, h0]
  · intro h0
    have h : ¬ 0 < es.length := by omega
    simp [get_malfunction_percentage, h]
  · intro h
    simp [get_malfunction_percentage, h]

/-- Ten concrete endoscopes, six of them broken. -/
def tenEndoscopes : List Endoscope :=
  [⟨1, "E1", "S1", "en panne", "stock"⟩,
   ⟨2, "E2", "S2", "en panne", "stock"⟩,
   ⟨3, "E3", "S3", "en panne", "stock"⟩,
   ⟨4, "E4", "S4", "en panne", "externe"⟩,
   ⟨5, "E5", "S5", "en panne", "externe"⟩,
   ⟨6, "E6", "S6", "en panne", "en utilisation"⟩,
   ⟨7, "E7", "S7", "fonctionnel", "stock"⟩,
   ⟨8, "E8", "S8", "fonctionnel", "stock"⟩,
   ⟨9, "E9", "S9", "fonctionnel", "stock"⟩,
   ⟨10, "E10", "S10", "fonctionnel", "zone de stérilisation"⟩]

/-- Witness for C6: over the ten concrete endoscopes with six broken the
statistic is `(60, 6, 10)`, and over the empty store it is `(0, 0, 0)`. -/
theorem malfunction_percentage_correct_witness :
    (get_malfunction_percentage tenEndoscopes).1 = 60 ∧
    (get_malfunction_percentage tenEndoscopes).2.1 = 6 ∧
    (get_malfunction_percentage tenEndoscopes).2.2 = 10 ∧
    get_malfunction_percentage [] = (0, 0, 0) := by
  refine ⟨?_, ?_, ?_, ?_⟩
  · have h := (malfunction_percentage_correct tenEndoscopes).2.2.2 (by decide)
    have h6 : (tenEndoscopes.filter
        (fun e => e.etat = "en panne")).length = 6 := by decide
    have h10 : tenEndoscopes.length = 10 := by decide
    rw [h, h6, h10]
    norm_num
  · rw [(malfunction_percentage_correct tenEndoscopes).1]
    decide
  · rw [(malfunction_percentage_correct tenEndoscopes).2.1]
    decide
  · exact (malfunction_percentage_correct []).2.2.1 rfl

/-- The filter widgets of the sterilization-report archive tab: the three
multiselects and the optional inclusive date bounds (dates as day
ordinals). -/
structure ArchiveFilters where
  operators : List String
  medecins : List String
  states : List String
  start_date : Option Nat
  end_date : Option Nat
deriving DecidableEq, Repr

/-- Direct statement of the filter predicate: within each non-empty
multiselect the report's value must be one of the selected values, and
the report's date must respect the inclusive optional bounds. -/
def matches_filters (fl : ArchiveFilters) (r : SterilizationReport) : Bool :=
  (fl.operators.isEmpty || fl.operators.contains r.nom_operateur) &&
  (fl.medecins.isEmpty || fl.medecins.contains r.medecin_responsable) &&
  (fl.states.isEmpty || fl.states.contains r.etat_endoscope) &&
  (match fl.start_date with
   | none => true
   | some d => d ≤ r.date_desinfection) &&
  (match fl.end_date with
   | none => true
   | some d => r.date_desinfection ≤ d)

/-- The sequential filter pipeline of `show_archives_interface`: each
non-empty multiselect restricts by membership (`isin`), each present date
bound restricts inclusively. -/
def apply_archive_filters (fl : ArchiveFilters)
    (rs : List SterilizationReport) : List SterilizationReport :=
  let rs1 := if fl.operators.isEmpty then rs
    else rs.filter (fun r => fl.operators.contains r.nom_operateur)
  let rs2 := if fl.medecins.isEmpty then rs1
    else rs1.filter (fun r => fl.medecins.contains r.medecin_responsable)
  let rs3 := if fl.states.isEmpty then rs2
    else rs2.filter (fun r => fl.states.contains r.etat_endoscope)
  let rs4 := match fl.start_date with
    | none => rs3
    | some d => rs3.filter (fun r => d ≤ r.date_desinfection)
  match fl.end_date with
  | none => rs4
  | some d => rs4.filter (fun r => r.date_desinfection ≤ d)

/-- C8: a report appears in the filtered archive exactly when it appears
in the store and satisfies every active filter — membership in each
non-empty multiselect (OR within a field, AND across fields) and the
inclusive optional date bounds. -/
theorem apply_archive_filters_mem (fl : ArchiveFilters)
    (rs : List SterilizationReport) (r : SterilizationReport) :
    r ∈ apply_archive_filters fl rs ↔
      r ∈ rs ∧ matches_filters fl r = true := by
  obtain ⟨ops, meds, sts, sd, ed⟩ := fl
  simp only [apply_archive_filters, matches_filters]
  cases hops : ops.isEmpty <;> cases hmeds : meds.isEmpty <;>
    cases hsts : sts.isEmpty <;> cases sd <;> cases ed <;>
    simp_all [List.mem_filter, List.isEmpty_iff, and_assoc]
  all_goals
    intro _
    tauto

/-- A concrete archived report by alice on a broken endoscope. -/
def archReport : SterilizationReport :=
  mkReport { panneForm with nature_panne := some "fuite" }
    "alice" "Olympus GIF" "S100"

/-- Witness for C8: on a one-report store, the report by alice passes the
filter selecting operators alice and bob with matching date bounds, and
is excluded once the operator multiselect names only bob. -/
theorem apply_archive_filters_mem_witness :
    archReport ∈ apply_archive_filters
      ⟨["alice", "bob"], [], ["en panne"], some 20000, some 21000⟩
      [archReport] ∧
    archReport ∉ apply_archive_filters
      ⟨["bob"], [], [], none, none⟩ [archReport] := by
  constructor
  · exact (apply_archive_filters_mem
      ⟨["alice", "bob"], [], ["en panne"], some 20000, some 21000⟩
      [archReport] archReport).mpr ⟨by decide, by decide⟩
  · intro h
    have := (apply_archive_filters_mem
      ⟨["bob"], [], [], none, none⟩ [archReport] archReport).mp h
    exact absurd this.2 (by decide)

end EndoTrace
